import Mathlib

/-!
Verification of the AI Zoo Director pipeline (src/backend/fetch_unesco.py,
the iteration at lines 773-1315, plus the four-role curator variant at
lines 1318-1729).  The Python values flowing through the pipeline are
modelled shallowly: a JSON value that may be a missing key, an explicit
`null`, or a string is a `StrField`; a Python value that is either `None`
or a string is an `Option String`; Python truthiness on strings is
`pyTruthy`.  Network and AI calls are oracles passed in as arguments, and
each modelled entry point also reports how many provider calls it made so
that call-count properties can be stated.
-/

namespace ZooApp

/-- Audience role identifiers: the keys of the prompt-template tables
(`general` / `kids` / `biologist` / `tourist_guide`). -/
inductive Role where
  | general
  | kids
  | biologist
  | tourist_guide
deriving DecidableEq, Repr

instance : Fintype Role where
  elems := {Role.general, Role.kids, Role.biologist, Role.tourist_guide}
  complete := by intro r; cases r <;> decide

/-- A JSON object entry as seen through Python `dict.get`: the key can be
missing, present with an explicit `null`, or present with a string. -/
inductive StrField where
  | absent
  | null
  | str (s : String)
deriving DecidableEq, Repr

/-- A JSON object entry holding a number, for `observations_count`. -/
inductive ObsField where
  | absent
  | null
  | num (n : Nat)
deriving DecidableEq, Repr

/-- Python `d.get(k)` (no default): a missing key and an explicit `null`
both come back as `None`. -/
def pyGet : StrField → Option String
  | StrField.absent => none
  | StrField.null => none
  | StrField.str s => some s

/-- Python `d.get(k, default)`: the default is used only when the key is
missing; an explicit `null` comes back as `None`, not as the default. -/
def pyGetD : StrField → String → Option String
  | StrField.absent, d => some d
  | StrField.null, _ => none
  | StrField.str s, _ => some s

/-- Python truthiness of a string-or-None value: `None` and `""` are
falsy, every other string is truthy. -/
def pyTruthy : Option String → Bool
  | none => false
  | some s => !(s == "")

/-- Python `a or b` on string-or-None values. -/
def pyOr (a b : Option String) : Option String :=
  if pyTruthy a then a else b

/-- Python `s.lower()` for the strings this program handles: ASCII
letters are lowercased, everything else (CJK, punctuation) is unchanged.
Defined over the character list so that it evaluates by reduction. -/
def pyLower (s : String) : String :=
  String.mk (s.data.map Char.toLower)

/-- Python `s.strip()`: leading and trailing whitespace removed.  Defined
over the character list so that it evaluates by reduction. -/
def pyStrip (s : String) : String :=
  String.mk
    (((s.data.dropWhile Char.isWhitespace).reverse.dropWhile Char.isWhitespace).reverse)

/-- Cache validity window of `st.cache_data` (seconds), line 787. -/
def CACHE_TTL : Nat := 3600

/-- Maximum number of photos extracted from iNaturalist, line 788. -/
def MAX_PHOTOS : Nat := 3

/-- The `countries` entry of a GBIF `distribution` object. -/
inductive CountriesField where
  | absent
  | null
  | clist (xs : List String)
deriving DecidableEq, Repr

/-- A GBIF `distribution` JSON object: its `countries` entry plus whether
the object carries any other keys (which decides its Python truthiness). -/
structure DistDict where
  countries : CountriesField
  hasOtherKeys : Bool
deriving DecidableEq, Repr

/-- Python truthiness of the `distribution` dict: non-empty iff it has the
`countries` key or some other key. -/
def DistDict.isTruthy (dd : DistDict) : Bool :=
  (match dd.countries with
   | CountriesField.absent => false
   | _ => true) || dd.hasOtherKeys

/-- The first GBIF result object, with exactly the keys
`merge_animal_data` reads (lines 1019-1042).  `distribution := none` means
the key is missing, in which case `.get("distribution", {})` yields an
empty dict. -/
structure GbifData where
  vernacularName : StrField
  englishName : StrField
  scientificName : StrField
  kingdom : StrField
  phylum : StrField
  class_ : StrField
  order : StrField
  family : StrField
  genus : StrField
  status : StrField
  distribution : Option DistDict
deriving DecidableEq, Repr

/-- The first iNaturalist result object, with exactly the keys read by
`fetch_inaturalist_data` (lines 994-1000).  `photos := none` means the
key is missing (`.get("photos", [])` then yields `[]`). -/
structure InatRawResult where
  preferred_common_name : StrField
  habitat : StrField
  behavior : StrField
  photos : Option (List String)
  observations_count : ObsField
deriving DecidableEq, Repr

/-- The dict built and returned by `fetch_inaturalist_data` (lines
995-1001).  Every key is always present; a field is `none` exactly when
the Python dict holds `None` there. -/
structure InatData where
  common_name : Option String
  habitat : Option String
  behavior : Option String
  photos : List String
  observations_count : Option Nat
deriving DecidableEq, Repr

/-- Payload-extraction step of `fetch_inaturalist_data` (lines 994-1001):
builds the adapter dict from the first raw result via `result.get`. -/
def fetch_inaturalist_extract (result : InatRawResult) : InatData where
  common_name := pyGet result.preferred_common_name
  habitat := pyGetD result.habitat "No detailed records available"
  behavior := pyGetD result.behavior "No detailed records available"
  photos := (result.photos.getD []).take MAX_PHOTOS
  observations_count :=
    match result.observations_count with
    | ObsField.absent => some 0
    | ObsField.null => none
    | ObsField.num n => some n

/-- Result-list step of `fetch_inaturalist_data` (lines 991-994): `None`
when `results` is empty, otherwise the extraction of the first result. -/
def fetch_inaturalist_results (results : List InatRawResult) : Option InatData :=
  match results with
  | [] => none
  | r :: _ => some (fetch_inaturalist_extract r)

/-- Result-list step of `fetch_gbif_data` (line 959):
`data["results"][0] if data.get("results") else None`. -/
def fetch_gbif_results (results : List GbifData) : Option GbifData :=
  results.head?

/-- Distribution processing of `merge_animal_data` (lines 1019-1022):
`countries = distribution.get("countries", [])`, replaced by a one-element
fallback list when falsy; the fallback text depends on the truthiness of
the `distribution` dict itself. -/
def merge_countries (dist : Option DistDict) : List String :=
  let fallback : String :=
    match dist with
    | none => "Global distribution"
    | some dd => if dd.isTruthy then "No clear distribution records" else "Global distribution"
  match dist with
  | none => [fallback]
  | some dd =>
    match dd.countries with
    | CountriesField.absent => [fallback]
    | CountriesField.null => [fallback]
    | CountriesField.clist xs => if xs = [] then [fallback] else xs

/-- The `classification` sub-dict of the merged record (lines 1033-1040). -/
structure TaxonClassification where
  kingdom : Option String
  phylum : Option String
  class_ : Option String
  order : Option String
  family : Option String
  genus : Option String
deriving DecidableEq, Repr

/-- The merged animal-data dict (lines 1024-1047).  A field of type
`Option String` is `none` exactly when the Python dict holds `None`. -/
structure AnimalData where
  common_name : Option String
  chinese_name : Option String
  english_name : Option String
  scientific_name : Option String
  classification : TaxonClassification
  distribution : List String
  conservation_status : Option String
  habitat : Option String
  behavior : Option String
  photos : List String
  observations_count : Option Nat
deriving DecidableEq, Repr

/-- The dict literal returned by `merge_animal_data` when `gbif_data` is
truthy (lines 1024-1047).  The iNaturalist fields use `inat_data.get`
with a default, but the adapter dict always carries those keys, so the
stored value (possibly `None`) is returned as-is. -/
def merge_animal_fields (gbif_data : GbifData) (inat_data : InatData) : AnimalData where
  common_name :=
    pyOr (pyGet gbif_data.vernacularName)
      (pyOr inat_data.common_name (some "Unknown common name"))
  chinese_name := pyOr (pyGet gbif_data.vernacularName) (some "Unknown Chinese name")
  english_name := pyGetD gbif_data.englishName "Unknown English name"
  scientific_name := pyGetD gbif_data.scientificName "Unknown scientific name"
  classification :=
    { kingdom := pyGetD gbif_data.kingdom "Unknown"
      phylum := pyGetD gbif_data.phylum "Unknown"
      class_ := pyGetD gbif_data.class_ "Unknown"
      order := pyGetD gbif_data.order "Unknown"
      family := pyGetD gbif_data.family "Unknown"
      genus := pyGetD gbif_data.genus "Unknown" }
  distribution := merge_countries gbif_data.distribution
  conservation_status := pyGetD gbif_data.status "Unknown conservation status"
  habitat := inat_data.habitat
  behavior := inat_data.behavior
  photos := inat_data.photos
  observations_count := inat_data.observations_count

/-- Outcome of `merge_animal_data`: `notFound` is the Python `return None`
on a falsy `gbif_data`; `attrError` is the `AttributeError` raised when
`inat_data` is `None` and the dict literal evaluates `inat_data.get`. -/
inductive MergeResult where
  | attrError
  | notFound
  | record (r : AnimalData)
deriving DecidableEq, Repr

/-- Semantics of `merge_animal_data(gbif_data, inat_data)` (lines 1008-1047):
`None` when GBIF produced nothing; an uncaught `AttributeError` when GBIF
produced data but `inat_data` is `None` (the dict literal unconditionally
evaluates `inat_data.get("habitat", ...)`); otherwise the merged dict. -/
def merge_animal_data (gbif_data : Option GbifData) (inat_data : Option InatData) : MergeResult :=
  match gbif_data with
  | none => MergeResult.notFound
  | some g =>
    match inat_data with
    | none => MergeResult.attrError
    | some i => MergeResult.record (merge_animal_fields g i)

/-- Prompt-template table of the director iteration
(`DIRECTOR_PROMPT_TEMPLATES`, lines 791-846), one template text per role. -/
def DIRECTOR_PROMPT_TEMPLATES : Role → String
  | Role.general =>
    "\nYou are a senior director with 30 years of experience in a world-class zoo, \nskilled at explaining animal knowledge to general visitors in vivid, accessible language.\nBased on the following animal data, generate a complete, engaging explanation that includes:\n1. A warm opening greeting to attract attention (e.g., \"Welcome to the XX exhibit, everyone!\");\n2. Core content: Common name / English name / Scientific name + Physical characteristics + \n   Lifestyle (diet, habitat, behavior) + Geographic distribution + Conservation status;\n3. 1-2 fun trivia facts (e.g., unique survival skills, origin of common nicknames);\n4. A conservation initiative at the end to promote ecological protection awareness;\n5. Friendly and colloquial tone, avoid excessive academic jargon, clear paragraphs for easy reading.\n\nAnimal Data:\n{animal_data}\n"
  | Role.kids =>
    "\nYou are a zoo director specialized in educating children (ages 6-12), with a playful, energetic tone.\nBased on the following animal data, generate a kid-friendly explanation that includes:\n1. A cheerful, exciting opening (e.g., \"Hey little explorers! Let\x27s meet the amazing XX!\");\n2. Core content: Simple descriptions of appearance (cute/fun features), diet (favorite foods), \n   interesting behaviors (funny habits, unique skills) + basic habitat information;\n3. 2-3 fun, surprising trivia facts (e.g., \"Did you know? This animal can...!\");\n4. A simple, actionable conservation message (e.g., \"Let\x27s help protect their homes by...\");\n5. Use short sentences, exclamation points appropriately, avoid complex words, add emoji-like language.\n\nAnimal Data:\n{animal_data}\n"
  | Role.biologist =>
    "\nYou are a senior zoo director with a background in wildlife biology, speaking to professional biologists/students.\nBased on the following animal data, generate a technical, detailed explanation that includes:\n1. A concise opening introducing the species\x27 ecological significance;\n2. Core content: Complete taxonomic classification + detailed morphological characteristics + \n   ecological niche (dietary strategy, habitat specificity, interspecies interactions) + \n   population dynamics + conservation status (with IUCN category if available) + genetic relatedness;\n3. Latest research findings or taxonomic updates (if relevant);\n4. Conservation challenges and scientific management strategies;\n5. Academic but accessible tone, use standard biological terminology, provide precise data where possible.\n\nAnimal Data:\n{animal_data}\n"
  | Role.tourist_guide =>
    "\nYou are an experienced zoo tour guide, speaking to casual tourists seeking an engaging, memorable experience.\nBased on the following animal data, generate a lively, story-driven explanation that includes:\n1. An inviting opening that builds curiosity (e.g., \"Keep your eyes peeled—you\x27re about to meet one of our most fascinating residents!\");\n2. Core content: Highlight the most striking/unique features + interesting behavioral anecdotes + \n   cultural significance or folklore (if relevant) + best viewing tips (what to look for);\n3. 1-2 surprising \"did you know\" facts to impress visitors;\n4. A heartfelt conservation message that connects to visitors\x27 experience;\n5. Conversational tone, use storytelling elements, keep it engaging but not too technical.\n\nAnimal Data:\n{animal_data}\n"

/-- Prompt-template table of the four-role curator iteration
(`CURATOR_PROMPT_TEMPLATES`, lines 1336-1391), one template text per role. -/
def CURATOR_PROMPT_TEMPLATES : Role → String
  | Role.general =>
    "\nYou are a senior curator with 30 years of experience in a world-class zoo, \nskilled at explaining animal knowledge to general visitors in vivid, accessible language.\nBased on the following animal data, generate a complete, engaging explanation that includes:\n1. A warm opening greeting to attract attention (e.g., \"Welcome to the XX exhibit, everyone!\");\n2. Core content: Common name / English name / Scientific name + Physical characteristics + \n   Lifestyle (diet, habitat, behavior) + Geographic distribution + Conservation status;\n3. 1-2 fun trivia facts (e.g., unique survival skills, origin of common nicknames);\n4. A conservation initiative at the end to promote ecological protection awareness;\n5. Friendly and colloquial tone, avoid excessive academic jargon, clear paragraphs for easy reading.\n\nAnimal Data:\n{animal_data}\n"
  | Role.kids =>
    "\nYou are a zoo curator specialized in educating children (ages 6-12), with a playful, energetic tone.\nBased on the following animal data, generate a kid-friendly explanation that includes:\n1. A cheerful, exciting opening (e.g., \"Hey little explorers! Let\x27s meet the amazing XX!\");\n2. Core content: Simple descriptions of appearance (cute/fun features), diet (favorite foods), \n   interesting behaviors (funny habits, unique skills) + basic habitat information;\n3. 2-3 fun, surprising trivia facts (e.g., \"Did you know? This animal can...!\");\n4. A simple, actionable conservation message (e.g., \"Let\x27s help protect their homes by...\");\n5. Use short sentences, exclamation points appropriately, avoid complex words, add emoji-like language.\n\nAnimal Data:\n{animal_data}\n"
  | Role.biologist =>
    "\nYou are a senior zoo curator with a background in wildlife biology, speaking to professional biologists/students.\nBased on the following animal data, generate a technical, detailed explanation that includes:\n1. A concise opening introducing the species\x27 ecological significance;\n2. Core content: Complete taxonomic classification + detailed morphological characteristics + \n   ecological niche (dietary strategy, habitat specificity, interspecies interactions) + \n   population dynamics + conservation status (with IUCN category if available) + genetic relatedness;\n3. Latest research findings or taxonomic updates (if relevant);\n4. Conservation challenges and scientific management strategies;\n5. Academic but accessible tone, use standard biological terminology, provide precise data where possible.\n\nAnimal Data:\n{animal_data}\n"
  | Role.tourist_guide =>
    "\nYou are an experienced zoo tour guide, speaking to casual tourists seeking an engaging, memorable experience.\nBased on the following animal data, generate a lively, story-driven explanation that includes:\n1. An inviting opening that builds curiosity (e.g., \"Keep your eyes peeled—you\x27re about to meet one of our most fascinating residents!\");\n2. Core content: Highlight the most striking/unique features + interesting behavioral anecdotes + \n   cultural significance or folklore (if relevant) + best viewing tips (what to look for);\n3. 1-2 surprising \"did you know\" facts to impress visitors;\n4. A heartfelt conservation message that connects to visitors\x27 experience;\n5. Conversational tone, use storytelling elements, keep it engaging but not too technical.\n\nAnimal Data:\n{animal_data}\n"

/-- Shape of the static `GIANT_PANDA_DEFAULT_DATA` table (lines 857-930):
the panda record plus one pre-authored explanation per role.  Unlike a
merged record, this dict carries the extra `default_explanation` key. -/
structure PandaData where
  common_name : String
  chinese_name : String
  english_name : String
  scientific_name : String
  classification : List (String × String)
  distribution : List String
  conservation_status : String
  habitat : String
  behavior : String
  photos : List String
  observations_count : Nat
  default_explanation : Role → String

/-- The static Giant Panda table (lines 857-930). -/
def GIANT_PANDA_DEFAULT_DATA : PandaData where
  common_name := "Giant Panda"
  chinese_name := "大熊猫"
  english_name := "Giant Panda"
  scientific_name := "Ailuropoda melanoleuca"
  classification := [("Kingdom", "Animalia"), ("Phylum", "Chordata"), ("Class", "Mammalia"), ("Order", "Carnivora"), ("Family", "Ursidae"), ("Genus", "Ailuropoda")]
  distribution := ["China"]
  conservation_status := "Vulnerable (VU)"
  habitat := "Temperate broadleaf and mixed forests with dense bamboo stands, primarily in Sichuan, Shaanxi, and Gansu provinces of China"
  behavior := "Primarily herbivorous (99% bamboo diet), solitary except during breeding season, excellent climbers, spend 10-16 hours daily feeding"
  photos := [
    "https://upload.wikimedia.org/wikipedia/commons/thumb/0/0f/Grosser_Panda.JPG/1200px-Grosser_Panda.JPG",
    "https://upload.wikimedia.org/wikipedia/commons/thumb/6/6f/Panda_%2828908900398%29.jpg/1200px-Panda_%2828908900398%29.jpg",
    "https://upload.wikimedia.org/wikipedia/commons/thumb/5/5d/Giant_Panda_%28Ailuropoda_melanoleuca%29.jpg/1200px-Giant_Panda_%28Ailuropoda_melanoleuca%29.jpg"]
  observations_count := 158000
  default_explanation := fun role => match role with
    | Role.general =>
      "\nWelcome to the Giant Panda exhibit, everyone! It\x27s a pleasure to introduce you to one of the world\x27s most beloved and iconic animals—the Giant Panda (Ailuropoda melanoleuca)!\n\nThese fluffy black-and-white mammals are instantly recognizable with their round faces, black patches around their eyes, and stocky bodies. Despite being classified as carnivores, pandas have evolved to be almost exclusively herbivorous, with bamboo making up 99% of their diet. They can eat up to 12-38 kilograms of bamboo per day, spending 10-16 hours feeding to meet their energy needs!\n\nIn the wild, giant pandas are found only in the mountainous regions of central China, primarily in Sichuan, Shaanxi, and Gansu provinces. They inhabit temperate broadleaf and mixed forests with dense bamboo stands, which provide both food and shelter. Once endangered, their conservation status has improved to \"Vulnerable\" thanks to extensive protection efforts, including habitat preservation and captive breeding programs.\n\nFun trivia: Did you know that pandas have a specialized sixth finger (a modified wrist bone) that acts like an opposable thumb? This unique adaptation helps them grasp bamboo stalks with precision! Another interesting fact—pandas have a very low metabolic rate, similar to sloths, which is why they move slowly and sleep for much of the day.\n\nAs we admire these amazing creatures, let\x27s remember the importance of protecting their natural habitats. Deforestation and habitat fragmentation remain threats to their survival. By supporting conservation initiatives and sustainable practices, we can ensure that giant pandas continue to thrive for generations to come. Enjoy your time watching these gentle giants!\n        "
    | Role.kids =>
      "\nHey little explorers! Let\x27s meet the amazing Giant Panda—one of the cutest and most famous animals on Earth! 🐼\n\nLook at their fluffy black-and-white fur! They have big round faces, black \"eye masks\" that make them look like little superheroes, and chubby bodies that waddle when they walk—so adorable! Pandas love bamboo more than anything else—they eat it for breakfast, lunch, and dinner! They munch on 12-38 kilograms of bamboo every day—that\x27s like eating 100 bowls of rice! Yum!\n\nPandas live in the mountains of China, in forests where there are lots of bamboo plants. They\x27re great climbers and can even climb trees when they want to take a nap or escape from trouble. Unlike other bears, pandas don\x27t hibernate—they just move to warmer areas in the winter.\n\nDid you know? 🤯 Pandas have a secret \"extra finger\"! It\x27s not a real finger, but a special bone in their wrist that helps them hold bamboo like we hold a pencil. And baby pandas are called cubs—they\x27re only about the size of a stick of butter when they\x27re born, and they\x27re pink and hairless! How cool is that?\n\nLet\x27s help protect pandas! We can do simple things like saving paper (since paper comes from trees) and supporting zoos that help breed pandas. Every little bit helps these cute creatures keep their homes safe. Now, let\x27s watch them munch bamboo—they\x27re so good at it!\n        "
    | Role.biologist =>
      "\nThe Giant Panda (Ailuropoda melanoleuca) holds significant ecological and taxonomic importance as a member of the Ursidae family, representing a unique lineage within the Carnivora order. This species exhibits distinct morphological, behavioral, and physiological adaptations that make it a focal point of evolutionary biology research.\n\nTaxonomically, Ailuropoda melanoleuca is classified under Kingdom Animalia, Phylum Chordata, Class Mammalia, Order Carnivora, Family Ursidae, and Genus Ailuropoda. Phylogenetic studies indicate that pandas diverged from other bear species approximately 19-24 million years ago, with genetic analyses supporting their placement within the bear family rather than a separate family (Ailuropodidae).\n\nMorphologically, pandas display several specialized adaptations for their bamboo-dominated diet: a modified radial sesamoid bone (the \"sixth finger\") for grasping bamboo, robust jaw muscles and molar teeth for chewing tough plant material, and a reduced digestive tract (relative to other herbivores) despite their herbivorous diet. Their digestive system retains carnivorous characteristics, with low efficiency in cellulose digestion—compensated by high intake volumes (12-38 kg/day of bamboo).\n\nEcologically, pandas occupy a narrow niche in temperate broadleaf and mixed forests at elevations of 1,200-3,400 meters in central China. Their distribution is limited to fragmented habitats in Sichuan, Shaanxi, and Gansu provinces, with an estimated wild population of 1,864 individuals (2021 census). The species is classified as Vulnerable (VU) by the IUCN Red List, with primary threats including habitat fragmentation, climate change-induced bamboo die-offs, and human-wildlife conflict.\n\nPopulation management strategies include habitat connectivity projects (e.g., the Giant Panda National Park, established in 2020), captive breeding programs with a success rate of ~80% in major facilities, and genetic monitoring to maintain genetic diversity. Recent research has focused on the species\x27 gut microbiome adaptation to bamboo digestion and the impact of climate change on bamboo phenology.\n\nConservation challenges persist, particularly regarding habitat fragmentation and the long-term sustainability of bamboo forests. Continued scientific research, habitat protection, and community engagement are critical for the species\x27 long-term survival.\n        "
    | Role.tourist_guide =>
      "\nKeep your eyes peeled—you\x27re about to meet one of our most fascinating residents: the Giant Panda! These gentle giants are not just cute—they\x27re living symbols of conservation success and cultural heritage.\n\nAs you watch them munch bamboo, notice their iconic black-and-white markings—each panda\x27s pattern is unique, like a fingerprint! Those black patches around their eyes aren\x27t just for show—scientists think they help reduce glare from the sun and may also serve as a form of communication. And that waddling walk? It\x27s due to their short legs and stocky build, which are perfect for climbing trees but make walking on the ground a little comical.\n\nPandas have deep cultural significance in China, where they\x27re considered a national treasure and a symbol of peace. For centuries, they\x27ve been featured in art, literature, and folklore. But beyond their cultural importance, they\x27re also ecological indicators—their presence means the forest ecosystem is healthy.\n\nPro tip: Look closely at how they hold the bamboo—they use their \"sixth finger\" to grip stalks with amazing precision. If you\x27re lucky, you might see them do a little somersault or climb a tree—they\x27re surprisingly agile for their size! And don\x27t worry if they seem lazy—pandas sleep up to 14 hours a day to conserve energy from their low-nutrient bamboo diet.\n\nDid you know that pandas were once endangered? Thanks to decades of conservation efforts, their population has grown, and they\x27re now classified as Vulnerable. But their habitat is still under threat, so every time we support conservation, we\x27re helping these amazing animals thrive.\n\nTake a moment to appreciate these gentle giants—they\x27re a reminder of how human action can make a positive difference. Enjoy the view, and feel free to ask if you have any questions!\n        "

/-- The allow-list used by `process_animal_query` (line 1236):
`species_name.lower() in ["giant panda", "大熊猫", "ailuropoda melanoleuca"]`. -/
def PANDA_ALLOWLIST : List String :=
  ["giant panda", "大熊猫", "ailuropoda melanoleuca"]

/-- Generation-parameter tuple of one AI call: temperature and max_tokens. -/
structure GenParams where
  temperature : ℚ
  max_tokens : Nat
deriving DecidableEq, Repr

/-- Parameters of the AI call in the director iteration (lines 1082-1083):
`temperature=0.7 if selected_role != "biologist" else 0.3`, `max_tokens=800`. -/
def director_gen_params (selected_role : Role) : GenParams where
  temperature := if selected_role ≠ Role.biologist then 7/10 else 3/10
  max_tokens := 800

/-- Parameters of the AI call in the curator variant (lines 1546-1547):
same temperature rule, `max_tokens=1500 if selected_role == "biologist"
else 1200`. -/
def curator_gen_params (selected_role : Role) : GenParams where
  temperature := if selected_role ≠ Role.biologist then 7/10 else 3/10
  max_tokens := if selected_role = Role.biologist then 1500 else 1200

/-- Outcome of the `chat.completions.create` call as observed by
`generate_director_explanation` through its `except` clauses
(lines 1078-1094): a completion text, or one of the caught exception
classes. -/
inductive GenCall where
  | ok (text : String)
  | authentication_error
  | rate_limit_error
  | api_error (detail : String)
  | other_error (detail : String)
deriving DecidableEq, Repr

/-- Behavior of the AI provider for one generation attempt:
`init_ai_client` may fail (lines 1049-1055), otherwise the single API
call resolves to a `GenCall`. -/
inductive GenOracle where
  | clientInitFail (detail : String)
  | client (call : GenCall)
deriving DecidableEq, Repr

/-- What one call of `generate_director_explanation` produces: the
returned value (`None` on every failure path), the `st.error` message
emitted, if any, and the number of AI API calls made. -/
structure GenReturn where
  text : Option String
  uiError : Option String
  apiCalls : Nat
deriving DecidableEq, Repr

/-- Semantics of `generate_director_explanation(animal_data, api_key,
selected_role)` (lines 1057-1095).  The panda bypass (line 1066) fires
when the scientific name equals "Ailuropoda melanoleuca" and no API key
was supplied.  On success the stripped completion is returned; each
caught exception emits its own `st.error` message and the function then
returns `None`. -/
def generate_director_explanation (oracle : GenOracle) (animal_data : AnimalData)
    (api_key : String) (selected_role : Role) : GenReturn :=
  if animal_data.scientific_name = some "Ailuropoda melanoleuca" ∧ api_key = "" then
    { text := some (pyStrip (GIANT_PANDA_DEFAULT_DATA.default_explanation selected_role))
      uiError := none
      apiCalls := 0 }
  else
    match oracle with
    | GenOracle.clientInitFail d =>
      { text := none
        uiError := some ("❌ Failed to initialize AI client: " ++ d)
        apiCalls := 0 }
    | GenOracle.client call =>
      match call with
      | GenCall.ok t =>
        { text := some (pyStrip t), uiError := none, apiCalls := 1 }
      | GenCall.authentication_error =>
        { text := none
          uiError := some "❌ Invalid or unauthorized API Key. Please check your key."
          apiCalls := 1 }
      | GenCall.rate_limit_error =>
        { text := none
          uiError := some "❌ API rate limit exceeded. Please try again later or upgrade your plan."
          apiCalls := 1 }
      | GenCall.api_error d =>
        { text := none
          uiError := some ("❌ AI generation failed: " ++ d)
          apiCalls := 1 }
      | GenCall.other_error d =>
        { text := none
          uiError := some ("❌ Unknown error: " ++ d)
          apiCalls := 1 }

/-- Terminal outcome of `process_animal_query` (lines 1232-1261), up to
the point where an explanation (or an early return or uncaught
exception) is determined.  `crashAttrError` is the `AttributeError`
escaping from `merge_animal_data`; `crashKeyError` is the `KeyError`
raised at line 1254 when the merged dict, which has no
`default_explanation` key, is indexed with it. -/
inductive QueryResult where
  | crashAttrError
  | crashKeyError
  | noData
  | apiKeyRequired
  | genFailed
  | explained (text : String)
deriving DecidableEq, Repr

/-- Outcome of one `process_animal_query` run together with the number of
calls made to each provider. -/
structure QueryOutcome where
  result : QueryResult
  gbifCalls : Nat
  inatCalls : Nat
  genCalls : Nat
deriving DecidableEq, Repr

/-- Semantics of `process_animal_query(species_name, region, api_key,
selected_role, ...)` (lines 1232-1261), with display steps omitted.
An allow-list match (line 1236) substitutes the static panda table, whose
scientific name then selects its `default_explanation` entry at line 1254
without any fetch or AI call.  Otherwise both adapters are called once,
the results merged, and: a falsy merge is the no-data early return
(lines 1245-1250); a merged record whose scientific name equals
"Ailuropoda melanoleuca" hits the `KeyError` at line 1254; an empty
`api_key` is the early return at lines 1256-1258; otherwise
`generate_director_explanation` runs and a falsy explanation is the early
return at lines 1260-1261. -/
def process_animal_query (netGbif : String → String → Option GbifData)
    (netInat : String → Option InatData) (oracle : GenOracle)
    (species_name region api_key : String) (selected_role : Role) : QueryOutcome :=
  if pyLower species_name ∈ PANDA_ALLOWLIST then
    { result := QueryResult.explained
        (pyStrip (GIANT_PANDA_DEFAULT_DATA.default_explanation selected_role))
      gbifCalls := 0, inatCalls := 0, genCalls := 0 }
  else
    match merge_animal_data (netGbif species_name region) (netInat species_name) with
    | MergeResult.attrError =>
      { result := QueryResult.crashAttrError, gbifCalls := 1, inatCalls := 1, genCalls := 0 }
    | MergeResult.notFound =>
      { result := QueryResult.noData, gbifCalls := 1, inatCalls := 1, genCalls := 0 }
    | MergeResult.record a =>
      if a.scientific_name = some "Ailuropoda melanoleuca" then
        { result := QueryResult.crashKeyError, gbifCalls := 1, inatCalls := 1, genCalls := 0 }
      else if api_key = "" then
        { result := QueryResult.apiKeyRequired, gbifCalls := 1, inatCalls := 1, genCalls := 0 }
      else
        let g := generate_director_explanation oracle a api_key selected_role
        match g.text with
        | none =>
          { result := QueryResult.genFailed, gbifCalls := 1, inatCalls := 1, genCalls := g.apiCalls }
        | some t =>
          if t = "" then
            { result := QueryResult.genFailed, gbifCalls := 1, inatCalls := 1, genCalls := g.apiCalls }
          else
            { result := QueryResult.explained t, gbifCalls := 1, inatCalls := 1, genCalls := g.apiCalls }

/-- One memo entry of the `st.cache_data` cache wrapping
`fetch_gbif_data`: the raw argument pair it was stored under, the time it
was stored, and the memoized return value. -/
structure GbifCacheEntry where
  species_name : String
  region : String
  storedAt : Nat
  value : Option GbifData
deriving DecidableEq, Repr

/-- Cache lookup: a stored entry answers for the same raw argument pair
while it is younger than `CACHE_TTL`. -/
def gbifCacheLookup : List GbifCacheEntry → String → String → Nat → Option (Option GbifData)
  | [], _, _, _ => none
  | e :: rest, s, r, now =>
    if e.species_name = s ∧ e.region = r ∧ now < e.storedAt + CACHE_TTL then some e.value
    else gbifCacheLookup rest s r now

/-- Semantics of `fetch_gbif_data(species_name, region)` together with its
`@st.cache_data(ttl=CACHE_TTL)` decorator (lines 933-964).  The memo key
is the raw argument pair; only the network request itself uses
`species_name.strip()` (line 942).  Returns the value, the updated cache,
and the number of network calls made (0 on a hit, 1 on a miss). -/
def fetch_gbif_data (net : String → String → Option GbifData)
    (cache : List GbifCacheEntry) (now : Nat) (species_name region : String) :
    Option GbifData × List GbifCacheEntry × Nat :=
  match gbifCacheLookup cache species_name region now with
  | some v => (v, cache, 0)
  | none =>
    let v := net (pyStrip species_name) region
    (v, { species_name := species_name, region := region, storedAt := now, value := v } :: cache, 1)

/-- Modelled from the spec: the cache-key normalization the spec claims
("normalized query string", "case-normalized, trimmed").  Kept for
comparison with the implementation, which keys the memo on the raw
argument strings. -/
def spec_normalized_query (s : String) : String :=
  pyLower (pyStrip s)

/-- The clickable example species of the landing page (line 1205). -/
def example_species : List String :=
  ["African Elephant", "Siberian Tiger", "Blue Whale", "Giraffe", "Polar Bear"]

/-- Dispatch logic of `main` (lines 1165 and 1219-1223): the landing page
when nothing was searched or clicked; the search branch only when the
button was pressed and the name is truthy; otherwise the stored example
click, searched with an empty region.  Returns the (name, region)
arguments passed to `process_animal_query`, or `none` when no query runs. -/
def main_dispatch (search_btn : Bool) (search_name region : String)
    (selected_example : Option (Fin 5)) : Option (String × String) :=
  if ¬ search_btn ∧ search_name = "" ∧ selected_example = none then
    none
  else if search_btn ∧ search_name ≠ "" then
    some (search_name, region)
  else
    match selected_example with
    | some i => some (example_species.get (Fin.cast (by decide) i), "")
    | none => none

/-- A network oracle for GBIF that always fails/finds nothing. -/
def netGbifNone : String → String → Option GbifData := fun _ _ => none

/-- A network oracle for iNaturalist that always fails/finds nothing. -/
def netInatNone : String → Option InatData := fun _ => none

/-- An AI oracle whose single call returns a completion. -/
def genOracleOk : GenOracle :=
  GenOracle.client (GenCall.ok "Generated explanation text.")

/-- A concrete well-formed GBIF result (an elephant record). -/
def gbif0 : GbifData where
  vernacularName := StrField.str "African bush elephant"
  englishName := StrField.str "African Elephant"
  scientificName := StrField.str "Loxodonta africana"
  kingdom := StrField.str "Animalia"
  phylum := StrField.str "Chordata"
  class_ := StrField.str "Mammalia"
  order := StrField.str "Proboscidea"
  family := StrField.str "Elephantidae"
  genus := StrField.str "Loxodonta"
  status := StrField.str "ACCEPTED"
  distribution := none

/-- A concrete well-formed iNaturalist adapter dict. -/
def inat0 : InatData where
  common_name := some "African bush elephant"
  habitat := some "savanna"
  behavior := some "lives in herds"
  photos := ["https://example.org/photo1.jpg"]
  observations_count := some 120

/-- GBIF result whose vernacular name is present but the empty string. -/
def gbifEmptyVern : GbifData :=
  { gbif0 with vernacularName := StrField.str "" }

/-- GBIF result whose vernacular name is an explicit `null`. -/
def gbifNullVern : GbifData :=
  { gbif0 with vernacularName := StrField.null }

/-- GBIF result whose scientific name is exactly the panda binomial. -/
def gbifPanda : GbifData :=
  { gbif0 with scientificName := StrField.str "Ailuropoda melanoleuca" }

/-- iNaturalist adapter dict carrying a distinct common name. -/
def inatTest : InatData :=
  { inat0 with common_name := some "Test" }

/-- A raw iNaturalist result whose payload carries explicit `null` values
for the optional keys. -/
def inatRawNull : InatRawResult where
  preferred_common_name := StrField.null
  habitat := StrField.null
  behavior := StrField.null
  photos := none
  observations_count := ObsField.null

/-- GBIF network oracle always returning the elephant record. -/
def netGbif0 : String → String → Option GbifData := fun _ _ => some gbif0

/-- GBIF network oracle always returning the panda-named record. -/
def netGbifPanda : String → String → Option GbifData := fun _ _ => some gbifPanda

/-- iNaturalist network oracle always returning `inat0`. -/
def netInat0 : String → Option InatData := fun _ => some inat0

/-- The merged record of the two concrete adapter results. -/
def animal0 : AnimalData :=
  merge_animal_fields gbif0 inat0

/-- Two strings are distinct whenever their first four characters are. -/
lemma string_ne_of_take4 (s t : String) (h : s.data.take 4 ≠ t.data.take 4) : s ≠ t :=
  fun e => h (congrArg (fun u => u.data.take 4) e)

/-- A string differs from `p ++ d` for every `d` whenever its first four
characters differ from those of `p` and `p` has at least four. -/
lemma ne_append_of_take4_ne (c p d : String) (h4 : 4 ≤ p.data.length)
    (hne : c.data.take 4 ≠ p.data.take 4) : c ≠ p ++ d := by
  intro h
  apply hne
  have hd : c.data = p.data ++ d.data := by rw [h, String.data_append]
  rw [hd, List.take_append_of_le_length h4]

/-- Appending one and the same suffix preserves distinctness of strings. -/
lemma append_left_ne (p q d : String) (hne : p.data ≠ q.data) : p ++ d ≠ q ++ d := by
  intro h
  apply hne
  have hd : p.data ++ d.data = q.data ++ d.data := by
    rw [← String.data_append, ← String.data_append, h]
  exact List.append_cancel_right hd

/-- Claim C1: the claim says a single failing provider only degrades the
merge and never aborts the query.  The code disagrees on both sides:
with GBIF absent and iNaturalist present, `merge_animal_data` returns
`None` (NotFound), discarding the iNaturalist data; with GBIF present and
iNaturalist absent (`None`), the dict literal evaluates
`inat_data.get("habitat", ...)` on `None` and the merge raises an
uncaught `AttributeError`, aborting the whole query. -/
theorem merge_single_provider_eval :
    merge_animal_data (some gbif0) none = MergeResult.attrError ∧
    merge_animal_data none (some inat0) = MergeResult.notFound ∧
    (process_animal_query netGbif0 netInatNone genOracleOk
      "African Elephant" "" "" Role.general).result = QueryResult.crashAttrError :=
  ⟨rfl, rfl, by decide⟩

/-- Claim C2: when every adapter returned no data (both fetch results are
`None`), `merge_animal_data` returns the NotFound outcome (`None`), and
that outcome is a different value from any canonical record, including an
all-unknown one. -/
theorem merge_all_empty_notFound :
    merge_animal_data none none = MergeResult.notFound ∧
    ∀ r : AnimalData, MergeResult.notFound ≠ MergeResult.record r :=
  ⟨rfl, fun _ h => MergeResult.noConfusion h⟩

/-- Witness for the C2 theorem at a concrete record. -/
theorem merge_all_empty_notFound_witness :
    MergeResult.notFound ≠ MergeResult.record animal0 :=
  merge_all_empty_notFound.2 animal0

/-- Counterexample to claim C3 as stated: GBIF supplies the non-absent
(present) common-name value `""`, iNaturalist supplies the different
non-absent value `"Test"`, yet the merge selects the iNaturalist value,
because the `or`-chain at lines 1025-1029 tests Python truthiness, not
absence. -/
theorem merge_precedence_counterexample :
    gbifEmptyVern.vernacularName = StrField.str "" ∧
    inatTest.common_name = some "Test" ∧
    ("" : String) ≠ "Test" ∧
    (merge_animal_fields gbifEmptyVern inatTest).common_name = some "Test" :=
  ⟨rfl, rfl, by decide, rfl⟩

/-- Claim C3 (amended): for the one field both adapters supply (the
common name), if the priority-1 adapter (GBIF) supplies a truthy
(non-empty, non-null) value, the merge selects it, whatever iNaturalist
supplied; the inputs are passed positionally per provider, so the result
depends only on the configured precedence.  A present-but-empty GBIF
string is treated as absent (see the counterexample). -/
theorem merge_precedence_gbif_first (g : GbifData) (i : InatData) (s : String)
    (hv : g.vernacularName = StrField.str s) (hs : s ≠ "") :
    (merge_animal_fields g i).common_name = some s ∧
    (merge_animal_fields g i).chinese_name = some s := by
  constructor <;>
    simp [merge_animal_fields, pyOr, pyGet, pyTruthy, hv, hs]

/-- Witness for the amended C3 theorem at a concrete input. -/
theorem merge_precedence_gbif_first_witness :
    (merge_animal_fields gbif0 inatTest).common_name = some "African bush elephant" ∧
    (merge_animal_fields gbif0 inatTest).chinese_name = some "African bush elephant" :=
  merge_precedence_gbif_first gbif0 inatTest "African bush elephant" rfl (by decide)

/-- Claim C4: the claim says no merged field is ever a language-level
`None`, including habitat/behavior when the provider payload carried an
explicit `null`.  The code violates this: `result.get("habitat", default)`
returns `None` (not the default) when the payload key is an explicit
`null`, and the merge passes it through, so the merged record holds
`None` for habitat and behavior.  The common-name field is protected by
its `or`-chain and does fall back to a string. -/
theorem merged_null_leak_eval :
    (fetch_inaturalist_extract inatRawNull).habitat = none ∧
    (fetch_inaturalist_extract inatRawNull).behavior = none ∧
    (merge_animal_fields gbif0 (fetch_inaturalist_extract inatRawNull)).habitat = none ∧
    (merge_animal_fields gbif0 (fetch_inaturalist_extract inatRawNull)).behavior = none ∧
    (merge_animal_fields gbifNullVern (fetch_inaturalist_extract inatRawNull)).common_name
      = some "Unknown common name" ∧
    (merge_animal_fields gbif0 (fetch_inaturalist_extract inatRawNull)).observations_count
      = none :=
  ⟨rfl, rfl, rfl, rfl, rfl, rfl⟩

/-- Counterexample to claim C5 as stated: `process_animal_query` invoked
with an empty species name does perform adapter fetches (one call to each
adapter), and no ValidationError exists anywhere in the pipeline. -/
theorem empty_name_fetch_counterexample :
    (process_animal_query netGbifNone netInatNone genOracleOk "" "" "" Role.general).gbifCalls = 1 ∧
    (process_animal_query netGbifNone netInatNone genOracleOk "" "" "" Role.general).inatCalls = 1 :=
  ⟨by decide, by decide⟩

/-- Claim C5 (amended): an empty query name never reaches the adapters
through the UI, because the search branch of `main` requires a truthy
name and the example branch only dispatches the fixed non-empty example
names; but this is a dispatch guard, not a ValidationError, and
`process_animal_query` itself, invoked directly with an empty name,
does perform its adapter fetches. -/
theorem empty_name_no_dispatch :
    (∀ (btn : Bool) (region : String) (ex : Option (Fin 5)) (nm r : String),
      main_dispatch btn "" region ex = some (nm, r) → nm ≠ "") ∧
    ∀ (region api_key : String) (role : Role),
      (process_animal_query netGbifNone netInatNone genOracleOk "" region api_key role).gbifCalls = 1 := by
  constructor
  · intro btn region ex nm r h
    cases ex with
    | none => cases btn <;> simp [main_dispatch] at h
    | some i =>
      cases btn <;>
        · simp [main_dispatch] at h
          obtain ⟨h1, h2⟩ := h
          subst h1
          fin_cases i <;> decide
  · intro region api_key role
    have hmem : pyLower "" ∉ PANDA_ALLOWLIST := by decide
    simp [process_animal_query, hmem, netGbifNone, netInatNone, merge_animal_data]

/-- Witness for the amended C5 theorem at a concrete input. -/
theorem empty_name_no_dispatch_witness :
    ("African Elephant" : String) ≠ "" :=
  empty_name_no_dispatch.1 false "" (some 0) "African Elephant" "" rfl

/-- Counterexample to claim C6 as stated: two calls whose queries are
identical after the claimed normalization (case-normalized, trimmed) and
that share a region, the second 10 time units after the first (well
within the TTL window), still invoke the network layer twice, because the
memo key is the raw argument pair, not the normalized query. -/
theorem cache_norm_key_counterexample :
    spec_normalized_query "Panda" = spec_normalized_query " panda" ∧
    "Panda" ≠ " panda" ∧
    (10 : Nat) < 0 + CACHE_TTL ∧
    (fetch_gbif_data netGbifNone [] 0 "Panda" "").2.2 +
      (fetch_gbif_data netGbifNone (fetch_gbif_data netGbifNone [] 0 "Panda" "").2.1
        10 " panda" "").2.2 = 2 :=
  ⟨by decide, by decide, by decide, by decide⟩

/-- Claim C6 (amended): two sequential calls to the cached GBIF adapter
with the identical raw `(species_name, region)` argument pair, the second
within `CACHE_TTL` of the first, invoke the network layer at most once:
the cache key is the raw query string plus region code, so queries
differing only in case or surrounding whitespace are cached separately. -/
theorem cache_hit_same_raw_key (net : String → String → Option GbifData)
    (cache : List GbifCacheEntry) (now1 now2 : Nat) (s r : String)
    (h : now2 < now1 + CACHE_TTL) :
    (fetch_gbif_data net cache now1 s r).2.2 +
      (fetch_gbif_data net (fetch_gbif_data net cache now1 s r).2.1 now2 s r).2.2 ≤ 1 := by
  unfold fetch_gbif_data
  cases hl : gbifCacheLookup cache s r now1 with
  | some v =>
    simp only [hl]
    cases hl2 : gbifCacheLookup cache s r now2 <;> simp [hl2]
  | none =>
    simp only [hl]
    have hfresh : gbifCacheLookup
        ({ species_name := s, region := r, storedAt := now1,
           value := net (pyStrip s) r } :: cache) s r now2
        = some (net (pyStrip s) r) := by
      simp [gbifCacheLookup, h]
    simp [hfresh]

/-- Witness for the amended C6 theorem at a concrete input. -/
theorem cache_hit_same_raw_key_witness :
    (fetch_gbif_data netGbifNone [] 0 "Panda" "CN").2.2 +
      (fetch_gbif_data netGbifNone (fetch_gbif_data netGbifNone [] 0 "Panda" "CN").2.1
        10 "Panda" "CN").2.2 ≤ 1 :=
  cache_hit_same_raw_key netGbifNone [] 0 10 "Panda" "CN" (by decide)

/-- Claim C7: the query "Giant Panda" with no credential returns the
pre-authored explanation for the selected role with zero adapter and zero
generation calls; and within `process_animal_query` an explanation served
without any generation call can only arise from an exact (lowercased)
match of the query against the static three-entry allow-list — never from
a fuzzy match of some other query.  (A merged record that merely carries
the panda scientific name raises a KeyError instead of serving canned
text, see the C10 analysis.) -/
theorem panda_allowlist_bypass :
    (∀ (netG : String → String → Option GbifData) (netI : String → Option InatData)
       (o : GenOracle) (region : String) (role : Role),
      process_animal_query netG netI o "Giant Panda" region "" role =
        { result := QueryResult.explained
            (pyStrip (GIANT_PANDA_DEFAULT_DATA.default_explanation role))
          gbifCalls := 0, inatCalls := 0, genCalls := 0 }) ∧
    (∀ (netG : String → String → Option GbifData) (netI : String → Option InatData)
       (o : GenOracle) (species_name region api_key : String) (role : Role),
      (process_animal_query netG netI o species_name region api_key role).genCalls = 0 →
      (∃ t, (process_animal_query netG netI o species_name region api_key role).result
          = QueryResult.explained t) →
      pyLower species_name ∈ PANDA_ALLOWLIST) := by
  constructor
  · intro netG netI o region role
    have hmem : pyLower "Giant Panda" ∈ PANDA_ALLOWLIST := by decide
    simp [process_animal_query, hmem]
  · intro netG netI o species_name region api_key role hgen hexp
    by_cases hmem : pyLower species_name ∈ PANDA_ALLOWLIST
    · exact hmem
    · exfalso
      obtain ⟨t, ht⟩ := hexp
      simp only [process_animal_query, if_neg hmem] at hgen ht
      cases hm : merge_animal_data (netG species_name region) (netI species_name) with
      | attrError => rw [hm] at ht; simp at ht
      | notFound => rw [hm] at ht; simp at ht
      | record a =>
        rw [hm] at hgen ht
        by_cases hsci : a.scientific_name = some "Ailuropoda melanoleuca"
        · simp [hsci] at ht
        · by_cases hkey : api_key = ""
          · simp [hsci, hkey] at ht
          · have hby : ¬ (a.scientific_name = some "Ailuropoda melanoleuca" ∧ api_key = "") :=
              fun hc => hsci hc.1
            cases o with
            | clientInitFail d =>
              simp [hsci, hkey, generate_director_explanation, hby] at ht
            | client call =>
              cases call with
              | ok t2 =>
                by_cases hts : pyStrip t2 = "" <;>
                  simp [hsci, hkey, hts, generate_director_explanation, hby] at hgen
              | authentication_error =>
                simp [hsci, hkey, generate_director_explanation, hby] at ht
              | rate_limit_error =>
                simp [hsci, hkey, generate_director_explanation, hby] at ht
              | api_error d =>
                simp [hsci, hkey, generate_director_explanation, hby] at ht
              | other_error d =>
                simp [hsci, hkey, generate_director_explanation, hby] at ht

/-- Witness for the C7 theorem at a concrete input. -/
theorem panda_allowlist_bypass_witness :
    pyLower "Giant Panda" ∈ PANDA_ALLOWLIST :=
  panda_allowlist_bypass.2 netGbifNone netInatNone genOracleOk "Giant Panda" "" "" Role.general
    (by decide)
    ⟨pyStrip (GIANT_PANDA_DEFAULT_DATA.default_explanation Role.general), rfl⟩

/-- Counterexample to claim C8 as stated: in the director iteration the
biologist role gets the same `max_tokens=800` as the narrative roles, not
a strictly larger budget; and the three narrative roles share one and the
same generation-parameter tuple in both iterations, so roles do not map
to pairwise distinct parameter tuples. -/
theorem role_params_counterexample :
    (director_gen_params Role.biologist).max_tokens
      = (director_gen_params Role.general).max_tokens ∧
    curator_gen_params Role.general = curator_gen_params Role.kids ∧
    Role.general ≠ Role.kids ∧
    director_gen_params Role.general = director_gen_params Role.tourist_guide :=
  ⟨rfl, rfl, by decide, rfl⟩

/-- Claim C8 (amended): the biologist role uses a strictly lower
temperature than every narrative role in both generation functions; its
`max_tokens` budget is strictly larger only in the curator variant
(1500 vs 1200) and equal (800) in the director iteration; each role maps
to a distinct template text in both template tables, but the three
narrative roles share a single generation-parameter tuple. -/
theorem role_params_policy :
    (∀ r : Role, r ≠ Role.biologist →
      (curator_gen_params Role.biologist).temperature < (curator_gen_params r).temperature ∧
      (curator_gen_params r).max_tokens < (curator_gen_params Role.biologist).max_tokens ∧
      (director_gen_params Role.biologist).temperature < (director_gen_params r).temperature ∧
      (director_gen_params r).max_tokens = (director_gen_params Role.biologist).max_tokens) ∧
    (∀ r r2 : Role, r ≠ r2 →
      DIRECTOR_PROMPT_TEMPLATES r ≠ DIRECTOR_PROMPT_TEMPLATES r2 ∧
      CURATOR_PROMPT_TEMPLATES r ≠ CURATOR_PROMPT_TEMPLATES r2) := by
  constructor
  · intro r hr
    cases r with
    | biologist => exact absurd rfl hr
    | general =>
      exact ⟨by norm_num [curator_gen_params,
          show Role.general ≠ Role.biologist from by decide], by decide,
        by norm_num [director_gen_params,
          show Role.general ≠ Role.biologist from by decide], rfl⟩
    | kids =>
      exact ⟨by norm_num [curator_gen_params,
          show Role.kids ≠ Role.biologist from by decide], by decide,
        by norm_num [director_gen_params,
          show Role.kids ≠ Role.biologist from by decide], rfl⟩
    | tourist_guide =>
      exact ⟨by norm_num [curator_gen_params,
          show Role.tourist_guide ≠ Role.biologist from by decide], by decide,
        by norm_num [director_gen_params,
          show Role.tourist_guide ≠ Role.biologist from by decide], rfl⟩
  · intro r r2 h
    cases r <;> cases r2 <;>
      first
        | exact absurd rfl h
        | exact ⟨by decide, by decide⟩

/-- Witness for the amended C8 theorem at a concrete input. -/
theorem role_params_policy_witness :
    (curator_gen_params Role.biologist).temperature
        < (curator_gen_params Role.general).temperature ∧
    (curator_gen_params Role.general).max_tokens
        < (curator_gen_params Role.biologist).max_tokens ∧
    (director_gen_params Role.biologist).temperature
        < (director_gen_params Role.general).temperature ∧
    (director_gen_params Role.general).max_tokens
        = (director_gen_params Role.biologist).max_tokens :=
  role_params_policy.1 Role.general (by decide)

/-- Counterexample to claim C9 as stated: two distinct failure causes of
the generation call (invalid credential vs provider throttling) yield the
same returned value `None`, so the caller of
`generate_director_explanation` cannot distinguish the failure kinds from
what the function returns. -/
theorem gen_failure_collapse_counterexample :
    (generate_director_explanation (GenOracle.client GenCall.authentication_error)
        animal0 "sk-test" Role.general).text = none ∧
    (generate_director_explanation (GenOracle.client GenCall.rate_limit_error)
        animal0 "sk-test" Role.general).text = none ∧
    (generate_director_explanation (GenOracle.client GenCall.authentication_error)
        animal0 "sk-test" Role.general).text
      = (generate_director_explanation (GenOracle.client GenCall.rate_limit_error)
        animal0 "sk-test" Role.general).text :=
  ⟨by decide, by decide, by decide⟩

/-- Claim C9 (amended): each failure cause of the generation call emits
its own distinct `st.error` message inside the function (invalid
credential, rate limit, other API fault, unknown fault, client-init
failure are pairwise distinguishable in the emitted message), but the
function returns `None` for every failure, so the failure kinds all
collapse to the same returned value at the caller. -/
theorem gen_failure_messages (a : AnimalData) (api_key : String) (role : Role) (d : String)
    (hby : ¬ (a.scientific_name = some "Ailuropoda melanoleuca" ∧ api_key = "")) :
    ((generate_director_explanation (GenOracle.client GenCall.authentication_error)
        a api_key role).text = none ∧
     (generate_director_explanation (GenOracle.client GenCall.rate_limit_error)
        a api_key role).text = none ∧
     (generate_director_explanation (GenOracle.client (GenCall.api_error d))
        a api_key role).text = none ∧
     (generate_director_explanation (GenOracle.client (GenCall.other_error d))
        a api_key role).text = none ∧
     (generate_director_explanation (GenOracle.clientInitFail d)
        a api_key role).text = none) ∧
    List.Pairwise (· ≠ ·)
      [(generate_director_explanation (GenOracle.client GenCall.authentication_error)
          a api_key role).uiError,
       (generate_director_explanation (GenOracle.client GenCall.rate_limit_error)
          a api_key role).uiError,
       (generate_director_explanation (GenOracle.client (GenCall.api_error d))
          a api_key role).uiError,
       (generate_director_explanation (GenOracle.client (GenCall.other_error d))
          a api_key role).uiError,
       (generate_director_explanation (GenOracle.clientInitFail d)
          a api_key role).uiError] := by
  have e1 : (generate_director_explanation (GenOracle.client GenCall.authentication_error)
      a api_key role) =
      { text := none,
        uiError := some "❌ Invalid or unauthorized API Key. Please check your key.",
        apiCalls := 1 } := by
    simp [generate_director_explanation, hby]
  have e2 : (generate_director_explanation (GenOracle.client GenCall.rate_limit_error)
      a api_key role) =
      { text := none,
        uiError := some "❌ API rate limit exceeded. Please try again later or upgrade your plan.",
        apiCalls := 1 } := by
    simp [generate_director_explanation, hby]
  have e3 : (generate_director_explanation (GenOracle.client (GenCall.api_error d))
      a api_key role) =
      { text := none,
        uiError := some ("❌ AI generation failed: " ++ d),
        apiCalls := 1 } := by
    simp [generate_director_explanation, hby]
  have e4 : (generate_director_explanation (GenOracle.client (GenCall.other_error d))
      a api_key role) =
      { text := none,
        uiError := some ("❌ Unknown error: " ++ d),
        apiCalls := 1 } := by
    simp [generate_director_explanation, hby]
  have e5 : (generate_director_explanation (GenOracle.clientInitFail d)
      a api_key role) =
      { text := none,
        uiError := some ("❌ Failed to initialize AI client: " ++ d),
        apiCalls := 0 } := by
    simp [generate_director_explanation, hby]
  rw [e1, e2, e3, e4, e5]
  refine ⟨⟨rfl, rfl, rfl, rfl, rfl⟩, ?_⟩
  have l12 : (some "❌ Invalid or unauthorized API Key. Please check your key." : Option String)
      ≠ some "❌ API rate limit exceeded. Please try again later or upgrade your plan." := by
    decide
  have l13 : (some "❌ Invalid or unauthorized API Key. Please check your key." : Option String)
      ≠ some ("❌ AI generation failed: " ++ d) :=
    fun h => ne_append_of_take4_ne _ _ d (by decide) (by decide) (Option.some.inj h)
  have l14 : (some "❌ Invalid or unauthorized API Key. Please check your key." : Option String)
      ≠ some ("❌ Unknown error: " ++ d) :=
    fun h => ne_append_of_take4_ne _ _ d (by decide) (by decide) (Option.some.inj h)
  have l15 : (some "❌ Invalid or unauthorized API Key. Please check your key." : Option String)
      ≠ some ("❌ Failed to initialize AI client: " ++ d) :=
    fun h => ne_append_of_take4_ne _ _ d (by decide) (by decide) (Option.some.inj h)
  have l23 : (some "❌ API rate limit exceeded. Please try again later or upgrade your plan." :
      Option String) ≠ some ("❌ AI generation failed: " ++ d) :=
    fun h => ne_append_of_take4_ne _ _ d (by decide) (by decide) (Option.some.inj h)
  have l24 : (some "❌ API rate limit exceeded. Please try again later or upgrade your plan." :
      Option String) ≠ some ("❌ Unknown error: " ++ d) :=
    fun h => ne_append_of_take4_ne _ _ d (by decide) (by decide) (Option.some.inj h)
  have l25 : (some "❌ API rate limit exceeded. Please try again later or upgrade your plan." :
      Option String) ≠ some ("❌ Failed to initialize AI client: " ++ d) :=
    fun h => ne_append_of_take4_ne _ _ d (by decide) (by decide) (Option.some.inj h)
  have l34 : (some ("❌ AI generation failed: " ++ d) : Option String)
      ≠ some ("❌ Unknown error: " ++ d) :=
    fun h => append_left_ne _ _ d (by decide) (Option.some.inj h)
  have l35 : (some ("❌ AI generation failed: " ++ d) : Option String)
      ≠ some ("❌ Failed to initialize AI client: " ++ d) :=
    fun h => append_left_ne _ _ d (by decide) (Option.some.inj h)
  have l45 : (some ("❌ Unknown error: " ++ d) : Option String)
      ≠ some ("❌ Failed to initialize AI client: " ++ d) :=
    fun h => append_left_ne _ _ d (by decide) (Option.some.inj h)
  simp only [List.pairwise_cons, List.mem_cons, List.mem_singleton, List.not_mem_nil,
    or_false, forall_eq_or_imp, forall_eq]
  exact ⟨⟨l12, l13, l14, l15⟩, ⟨l23, l24, l25⟩, ⟨l34, l35⟩, l45,
    fun a hfalse => absurd hfalse not_false, List.Pairwise.nil⟩

/-- Witness for the amended C9 theorem at a concrete input. -/
theorem gen_failure_messages_witness :
    (generate_director_explanation (GenOracle.client (GenCall.api_error "boom"))
        animal0 "sk-test" Role.general).text = none :=
  (gen_failure_messages animal0 "sk-test" Role.general "boom" (by decide)).1.2.2.1

/-- Claim C10: the claim says a merged record whose scientific name is
"Ailuropoda melanoleuca" gets the canned per-role panda explanation with
no generation call.  In the code, line 1254 indexes the merged dict with
"default_explanation", a key only the static panda table has, so the
query crashes with a KeyError instead (the generation call is indeed
never reached); for every other merged record a supplied credential
leads to a generation attempt. -/
theorem merged_panda_keyerror_eval :
    (process_animal_query netGbifPanda netInat0 genOracleOk
        "panda bear" "" "sk-test" Role.general) =
      { result := QueryResult.crashKeyError, gbifCalls := 1, inatCalls := 1, genCalls := 0 } ∧
    (merge_animal_fields gbifPanda inat0).scientific_name = some "Ailuropoda melanoleuca" ∧
    (process_animal_query netGbif0 netInat0 genOracleOk
        "lion" "" "sk-test" Role.general).genCalls = 1 ∧
    (process_animal_query netGbif0 netInat0 genOracleOk
        "lion" "" "sk-test" Role.general).result =
      QueryResult.explained (pyStrip "Generated explanation text.") :=
  ⟨by decide, by decide, by decide, by decide⟩

end ZooApp
